import Mathlib

/-!
# Equipment visualizer front end

A shallow embedding of the client code of the chemical equipment analyzer:

* `components/FileUpload.js`   (`FileUpload.handleFileChange`)
* `components/EquipmentTypeChart.js`, `components/ResultsDisplay.js`
* `App.js`  (`handleFileChange`, `handleSubmit`, `getChartData`, the render body)

JavaScript values are embedded as the datatype `JsVal`; numbers are kept
abstract (a type `ν` with the three operations the code applies to them), so
nothing below depends on floating point arithmetic.  Asynchronous handlers are
split at their single `await` into the synchronous part that runs on the event
and the continuation that runs when the remote call settles.
-/

namespace EquipmentVisualizer

/-! ## JavaScript values -/

/-- Operations on JavaScript numbers used by the client code. -/
class JsNumber (ν : Type) where
  /-- Holds of the numbers that are falsy in a boolean context (`0`, `-0`, `NaN`). -/
  isFalsy : ν → Bool
  /-- The method `Number.prototype.toFixed` called with `2`. -/
  toFixed2 : ν → String
  /-- The text of `String(x)`, which React renders for a number child. -/
  toText : ν → String

/-- JavaScript values reaching the client: everything `JSON.parse` produces, and
`undefined` (the value of a missing property).  The properties of an object are
listed in property enumeration order. -/
inductive JsVal (ν : Type) where
  | undefined : JsVal ν
  | null : JsVal ν
  | bool (b : Bool) : JsVal ν
  | num (x : ν) : JsVal ν
  | str (s : String) : JsVal ν
  | arr (items : List (JsVal ν)) : JsVal ν
  | obj (props : List (String × JsVal ν)) : JsVal ν

/-- Exceptions the embedded code can raise. -/
inductive JsError where
  | typeError (msg : String) : JsError
  | error (msg : String) : JsError
  deriving DecidableEq, Repr

namespace JsVal

variable {ν : Type}

/-- Truthiness (`ToBoolean`): `undefined`, `null`, `false`, `0`, `NaN` and `""` are
falsy, every other value (all objects and arrays included) is truthy. -/
def truthy [JsNumber ν] : JsVal ν → Bool
  | undefined => false
  | null => false
  | bool b => b
  | num x => !JsNumber.isFalsy x
  | str s => !(s == "")
  | arr _ => true
  | obj _ => true

/-- The expression `a || b`. -/
def orElse [JsNumber ν] (a b : JsVal ν) : JsVal ν :=
  if a.truthy then a else b

/-- Own property lookup in a property list: the first entry with the key, or
`undefined`. -/
def lookupProp (k : String) : List (String × JsVal ν) → JsVal ν
  | [] => undefined
  | (k', v) :: rest => if k' = k then v else lookupProp k rest

/-- Property access `v.k` for a property name `k` that is not defined on the
built-in prototypes (all names read by the client are of this kind: `error`,
`equipment_by_type`, `equipment_per_type`, `average_flowrate`, ...).  Reading a
property of `undefined` or `null` throws a `TypeError`; on an object it is the
own property or `undefined`; on any other value it is `undefined`. -/
def getProp (v : JsVal ν) (k : String) : Except JsError (JsVal ν) :=
  match v with
  | undefined => .error (.typeError "Cannot read properties of undefined")
  | null => .error (.typeError "Cannot read properties of null")
  | obj props => .ok (lookupProp k props)
  | _ => .ok undefined

/-- The index keys `"0"`, ..., `"n-1"`. -/
def indexKeys (n : Nat) : List String :=
  (List.range n).map toString

/-- The call `Object.keys(v)` for a value other than `undefined` and `null`: the own
enumerable property names.  A string is enumerated per character (exact for
strings within the Basic Multilingual Plane). -/
def objectKeys : JsVal ν → List String
  | obj props => props.map Prod.fst
  | arr items => indexKeys items.length
  | str s => indexKeys s.length
  | _ => []

/-- The call `Object.values(v)` for a value other than `undefined` and `null`, in the
order of `objectKeys`. -/
def objectValues : JsVal ν → List (JsVal ν)
  | obj props => props.map Prod.snd
  | arr items => items
  | str s => s.toList.map (fun c => str (String.singleton c))
  | _ => []

/-- The value is a string with at least one character. -/
def isNonEmptyString : JsVal ν → Prop
  | str s => s ≠ ""
  | _ => False

end JsVal

/-- The integers as JavaScript numbers: integer valued numbers of ordinary size
print without a fraction and, under `toFixed(2)`, with the fraction `.00`. -/
instance : JsNumber Int where
  isFalsy n := n == 0
  toFixed2 n := toString n ++ ".00"
  toText n := toString n

/-- A file chosen in the file picker: an opaque handle of which the client only
reads the name. -/
structure File where
  name : String
  deriving DecidableEq, Repr

/-- The method call `s.endsWith(suffix)`. -/
def endsWith (s suffix : String) : Bool :=
  suffix.toList.isSuffixOf s.toList

/-! ## `components/FileUpload.js` -/

namespace FileUpload

variable {ν : Type}

/-- The constant `API_URL`. -/
def API_URL : String := "http://localhost:8000/api/upload/"

/-- What `handleFileChange` does to the outside: the callbacks it invokes (the
props `onUploadStart`, `onUploadSuccess`, `onUploadError`) and the request it
sends, in order. -/
inductive Effect (ν : Type) where
  | onUploadStart : Effect ν
  | post (url : String) (file : File) : Effect ν
  | onUploadSuccess (data : JsVal ν) : Effect ν
  | onUploadError (message : JsVal ν) : Effect ν

/-- How `axios.post` settles: it resolves with `response.data` on a 2xx status,
and rejects otherwise; the rejection carries `error.response.data` when a
response was received and no `response` when the request never completed. -/
inductive AxiosOutcome (ν : Type) where
  | resolved (data : JsVal ν) : AxiosOutcome ν
  | rejected (responseData : Option (JsVal ν)) : AxiosOutcome ν

/-- The text reported for a file that is not a CSV file. -/
def notCsvMessage : String := "Please upload a CSV file"

/-- The text reported when the rejection carries no `error` field. -/
def uploadFailedMessage : String :=
  "Failed to upload file. Please check if the backend server is running."

/-- The `catch` block of `handleFileChange`. -/
def catchBlock [JsNumber ν] (responseData : Option (JsVal ν)) : Effect ν :=
  match responseData with
  | none => .onUploadError (.str uploadFailedMessage)
  | some data =>
    if data.truthy then
      match data.getProp "error" with
      | .ok e =>
        if e.truthy then .onUploadError e
        else .onUploadError (.str uploadFailedMessage)
      | .error _ => .onUploadError (.str uploadFailedMessage)
    else .onUploadError (.str uploadFailedMessage)

/-- The handler `handleFileChange`, given `event.target.files[0]` (absent when the picker
is dismissed) and the way the remote call settles if it is made. -/
def handleFileChange [JsNumber ν] (file : Option File) (outcome : AxiosOutcome ν) :
    List (Effect ν) :=
  match file with
  | none => []
  | some f =>
    if !endsWith f.name ".csv" then
      [.onUploadError (.str notCsvMessage)]
    else
      [.onUploadStart, .post API_URL f] ++
        (match outcome with
         | .resolved data => [.onUploadSuccess data]
         | .rejected responseData => [catchBlock responseData])

/-- The effect is a call of `onUploadStart`. -/
def Effect.isStart : Effect ν → Bool
  | .onUploadStart => true
  | _ => false

/-- The effect is a remote request. -/
def Effect.isRequest : Effect ν → Bool
  | .post _ _ => true
  | _ => false

end FileUpload

/-! ## React children -/

mutual

/-- The text React renders for an expression child `{v}`: nothing for
`undefined`, `null` and booleans, the text of a string or number, the children
in turn for an array; a plain object is rejected with an error. -/
def reactChild {ν : Type} [JsNumber ν] : JsVal ν → Except JsError String
  | .undefined => .ok ""
  | .null => .ok ""
  | .bool _ => .ok ""
  | .num x => .ok (JsNumber.toText x)
  | .str s => .ok s
  | .arr items => reactChildren items
  | .obj _ => .error (.error "Objects are not valid as a React child")

/-- The text of a list of children, left to right. -/
def reactChildren {ν : Type} [JsNumber ν] : List (JsVal ν) → Except JsError String
  | [] => .ok ""
  | v :: rest =>
    match reactChild v with
    | .error e => .error e
    | .ok a =>
      match reactChildren rest with
      | .error e => .error e
      | .ok b => .ok (a ++ b)

end

/-! ## `components/EquipmentTypeChart.js` -/

/-- The `data` prop handed to the `Bar` component (labels and the single
dataset). -/
structure ChartData (ν : Type) where
  labels : List String
  datasetLabel : String
  data : List (JsVal ν)
  backgroundColor : List String
  borderColor : List String
  borderWidth : Nat

/-- What the chart component renders: the placeholder paragraph or the bar
chart. -/
inductive ChartView (ν : Type) where
  | noData (text : String) : ChartView ν
  | bar (chartData : ChartData ν) : ChartView ν

/-- The component `EquipmentTypeChart({ data })`. -/
def EquipmentTypeChart {ν : Type} [JsNumber ν] (data : JsVal ν) : ChartView ν :=
  if !data.truthy || data.objectKeys.length == 0 then
    .noData "No data available for chart"
  else
    .bar
      { labels := data.objectKeys
        datasetLabel := "Number of Equipment"
        data := data.objectValues
        backgroundColor :=
          ["rgba(76, 175, 80, 0.8)", "rgba(33, 150, 243, 0.8)", "rgba(255, 152, 0, 0.8)",
           "rgba(156, 39, 176, 0.8)", "rgba(244, 67, 54, 0.8)"]
        borderColor :=
          ["rgba(76, 175, 80, 1)", "rgba(33, 150, 243, 1)", "rgba(255, 152, 0, 1)",
           "rgba(156, 39, 176, 1)", "rgba(244, 67, 54, 1)"]
        borderWidth := 1 }

/-! ## `components/ResultsDisplay.js` -/

namespace ResultsDisplay

variable {ν : Type}

/-- The statistic cell of an average:
`v !== null && v !== undefined ? v.toFixed(2) : 'N/A'`.  Calling `toFixed` on a
value that is not a number throws a `TypeError`. -/
def renderAverage [JsNumber ν] (v : JsVal ν) : Except JsError String :=
  match v with
  | .null => .ok "N/A"
  | .undefined => .ok "N/A"
  | .num x => .ok (JsNumber.toFixed2 x)
  | _ => .error (.typeError "toFixed is not a function")

/-- The statistic cell of the field `field` of the payload `data`. -/
def averageCell [JsNumber ν] (data : JsVal ν) (field : String) : Except JsError String :=
  match data.getProp field with
  | .error e => .error e
  | .ok v => renderAverage v

/-- The chart section: `<EquipmentTypeChart data={data.equipment_per_type} />`. -/
def chartSection [JsNumber ν] (data : JsVal ν) : Except JsError (ChartView ν) :=
  match data.getProp "equipment_per_type" with
  | .error e => .error e
  | .ok m => .ok (EquipmentTypeChart m)

/-- What `ResultsDisplay` renders of the payload: the three average cells and
the chart section. -/
structure View (ν : Type) where
  averageFlowrate : String
  averagePressure : String
  averageTemperature : String
  chart : ChartView ν

/-- The component `ResultsDisplay({ data })`, restricted to the average cells
and the chart section; `none` is the `null` returned for a falsy `data`. -/
def render [JsNumber ν] (data : JsVal ν) : Except JsError (Option (View ν)) :=
  if !data.truthy then .ok none
  else
    match averageCell data "average_flowrate" with
    | .error e => .error e
    | .ok flow =>
      match averageCell data "average_pressure" with
      | .error e => .error e
      | .ok pres =>
        match averageCell data "average_temperature" with
        | .error e => .error e
        | .ok temp =>
          match chartSection data with
          | .error e => .error e
          | .ok chart => .ok (some ⟨flow, pres, temp, chart⟩)

end ResultsDisplay

/-! ## `App.js` -/

namespace App

variable {ν : Type}

/-- The four `useState` cells of `App`. -/
structure AppState (ν : Type) where
  selectedFile : Option File
  results : JsVal ν
  loading : Bool
  error : JsVal ν

/-- The initial state: `useState(null)`, `useState(null)`, `useState(false)`,
`useState(null)`. -/
def AppState.init : AppState ν :=
  { selectedFile := none, results := .null, loading := false, error := .null }

/-- A request sent with `fetch`: the URL and the file appended to the form data. -/
structure Request where
  url : String
  file : File
  deriving DecidableEq, Repr

/-- How the remote call of `handleSubmit` settles: `fetch` rejects, or it
resolves with a response of which the code reads `ok` and the body decoded by
`response.json()` (`none` when decoding rejects). -/
inductive FetchOutcome (ν : Type) where
  | rejected : FetchOutcome ν
  | response (ok : Bool) (body : Option (JsVal ν)) : FetchOutcome ν

/-- The outcomes of the remote call that are failures: the call rejects, the
body cannot be decoded, or the status is not 2xx (`response.ok` is false). -/
def FetchOutcome.isFailure : FetchOutcome ν → Bool
  | .rejected => true
  | .response _ none => true
  | .response ok (some _) => !ok

/-- The text set when no file is selected. -/
def selectFileFirstMessage : String := "Please select a CSV file first"

/-- The text set for an error response without a usable `error` field. -/
def processingErrorMessage : String := "An error occurred while processing the file"

/-- The text set in the `catch` block. -/
def connectErrorMessage : String :=
  "Failed to connect to the server. Make sure the backend is running."

/-- The handler `handleFileChange`, given `event.target.files[0]`. -/
def handleFileChange (s : AppState ν) (file : Option File) : AppState ν :=
  { s with selectedFile := file, error := .null }

/-- The part of `handleSubmit` that runs on the click, up to the `await`: the
new state and the requests sent. -/
def handleSubmitStart (s : AppState ν) : AppState ν × List Request :=
  match s.selectedFile with
  | none => ({ s with error := .str selectFileFirstMessage }, [])
  | some f =>
    ({ s with results := .null, error := .null, loading := true },
     [{ url := "http://localhost:8000/api/analyze/", file := f }])

/-- The `try` body of `handleSubmit` after the response arrived with a decoded
body: the state update, or the exception thrown by `data.error`. -/
def onResponse [JsNumber ν] (s : AppState ν) (ok : Bool) (data : JsVal ν) :
    Except JsError (AppState ν) :=
  if ok then .ok { s with results := data }
  else
    match data.getProp "error" with
    | .error e => .error e
    | .ok e => .ok { s with error := e.orElse (.str processingErrorMessage) }

/-- The `catch` block of `handleSubmit`. -/
def onCatch (s : AppState ν) : AppState ν :=
  { s with error := .str connectErrorMessage }

/-- The part of `handleSubmit` that runs when the remote call settles, applied
to the state at that time: `try` body, `catch` block, then `finally`. -/
def handleSubmitSettle [JsNumber ν] (s : AppState ν) (outcome : FetchOutcome ν) :
    AppState ν :=
  let s1 :=
    match outcome with
    | .rejected => onCatch s
    | .response _ none => onCatch s
    | .response ok (some data) =>
      match onResponse s ok data with
      | .ok s2 => s2
      | .error _ => onCatch s
  { s1 with loading := false }

/-- The attribute `disabled={loading}` of the submit button. -/
def submitDisabled (s : AppState ν) : Bool := s.loading

/-- A click on the submit button: a disabled button dispatches no click event,
an enabled one runs `handleSubmit`. -/
def clickSubmit (s : AppState ν) : AppState ν × List Request :=
  if submitDisabled s then (s, []) else handleSubmitStart s

/-- The actions of the user on the page. -/
inductive UserEvent where
  | selectFile (file : Option File) : UserEvent
  | submit : UserEvent
  deriving DecidableEq, Repr

/-- One user action: the new state and the requests sent. -/
def step (s : AppState ν) : UserEvent → AppState ν × List Request
  | .selectFile file => (handleFileChange s file, [])
  | .submit => clickSubmit s

/-- A sequence of user actions, with all the requests sent, in order. -/
def run (s : AppState ν) : List UserEvent → AppState ν × List Request
  | [] => (s, [])
  | e :: rest =>
    let r := step s e
    let q := run r.1 rest
    (q.1, r.2 ++ q.2)

/-- The function `getChartData`, reading the state cell `results`. -/
def getChartData [JsNumber ν] (results : JsVal ν) : Except JsError (Option (ChartData ν)) :=
  if !results.truthy then .ok none
  else
    match results.getProp "equipment_by_type" with
    | .error e => .error e
    | .ok m =>
      if !m.truthy then .ok none
      else
        .ok (some
          { labels := m.objectKeys
            datasetLabel := "Number of Equipment"
            data := m.objectValues
            backgroundColor :=
              ["rgba(52, 152, 219, 0.8)", "rgba(46, 204, 113, 0.8)", "rgba(155, 89, 182, 0.8)",
               "rgba(241, 196, 15, 0.8)", "rgba(231, 76, 60, 0.8)"]
            borderColor :=
              ["rgba(52, 152, 219, 1)", "rgba(46, 204, 113, 1)", "rgba(155, 89, 182, 1)",
               "rgba(241, 196, 15, 1)", "rgba(231, 76, 60, 1)"]
            borderWidth := 2 })

/-- The text of a statistic card `<p>{results.field}</p>` of the results
section. -/
def statCell [JsNumber ν] (results : JsVal ν) (field : String) : Except JsError String :=
  match results.getProp field with
  | .error e => .error e
  | .ok v => reactChild v

/-- The results section is rendered: `results && !loading`. -/
def showsResults [JsNumber ν] (s : AppState ν) : Bool :=
  s.results.truthy && !s.loading

end App

/-! ## Properties of `FileUpload.handleFileChange` -/

section FileUploadProps

variable {ν : Type}

open FileUpload

/-- The check `endsWith` holds exactly of the names made of some characters
followed by the characters of the suffix, compared character by character. -/
theorem endsWith_iff (s suffix : String) :
    endsWith s suffix = true ↔ ∃ stem : List Char, s.toList = stem ++ suffix.toList := by
  unfold endsWith
  rw [List.isSuffixOf_iff_suffix]
  constructor
  · rintro ⟨t, ht⟩
    exact ⟨t, ht.symm⟩
  · rintro ⟨t, ht⟩
    exact ⟨t, ht.symm⟩

/-- C1: for a selected file whose name does not end in ".csv",
`FileUpload.handleFileChange` does exactly one thing: it calls `onUploadError`
with the non-empty text "Please upload a CSV file"; it neither calls
`onUploadStart` nor sends a request, however the remote call would settle. -/
theorem handleFileChange_rejects_non_csv [JsNumber ν] (f : File) (outcome : AxiosOutcome ν)
    (hname : endsWith f.name ".csv" = false) :
    handleFileChange (some f) outcome = [Effect.onUploadError (.str "Please upload a CSV file")] ∧
      "Please upload a CSV file" ≠ "" ∧
      ∀ e ∈ handleFileChange (some f) outcome, e.isStart = false ∧ e.isRequest = false := by
  have h : handleFileChange (some f) outcome
      = [Effect.onUploadError (.str "Please upload a CSV file")] := by
    simp [handleFileChange, hname, notCsvMessage]
  refine ⟨h, by decide, ?_⟩
  intro e he
  rw [h] at he
  simp only [List.mem_singleton] at he
  subst he
  exact ⟨rfl, rfl⟩

/-- C1 at the file `notes.txt`. -/
theorem handleFileChange_rejects_non_csv_witness :
    endsWith "notes.txt" ".csv" = false ∧
      handleFileChange (some ⟨"notes.txt"⟩) (AxiosOutcome.resolved (JsVal.null : JsVal Int))
        = [Effect.onUploadError (.str "Please upload a CSV file")] :=
  ⟨by decide,
   (handleFileChange_rejects_non_csv ⟨"notes.txt"⟩ (AxiosOutcome.resolved JsVal.null)
      (by decide)).1⟩

/-- C2, as stated, fails: the file `DATA.CSV` is rejected with the error text and
no submission is started, whereas `data.csv` starts one. -/
theorem handleFileChange_upper_case_rejected :
    handleFileChange (some ⟨"DATA.CSV"⟩) (AxiosOutcome.resolved (JsVal.null : JsVal Int))
        = [Effect.onUploadError (.str "Please upload a CSV file")] ∧
      handleFileChange (some ⟨"data.Csv"⟩) (AxiosOutcome.resolved (JsVal.null : JsVal Int))
        = [Effect.onUploadError (.str "Please upload a CSV file")] ∧
      handleFileChange (some ⟨"data.csv"⟩) (AxiosOutcome.resolved (JsVal.null : JsVal Int))
        = [Effect.onUploadStart, Effect.post API_URL ⟨"data.csv"⟩,
           Effect.onUploadSuccess JsVal.null] := by
  refine ⟨?_, ?_, ?_⟩
  · have h : endsWith "DATA.CSV" ".csv" = false := by decide
    simp [handleFileChange, h, notCsvMessage]
  · have h : endsWith "data.Csv" ".csv" = false := by decide
    simp [handleFileChange, h, notCsvMessage]
  · have h : endsWith "data.csv" ".csv" = true := by decide
    simp [handleFileChange, h]

/-- C2, amended: the extension check is case-sensitive.  A selected file is
accepted exactly when its name is some characters followed by the four
characters `.`, `c`, `s`, `v`; then `onUploadStart` is called and one request
with the file is sent to `API_URL`, followed by the report of the outcome.
Every other name is rejected with the text "Please upload a CSV file". -/
theorem handleFileChange_accepts_iff_lower_csv [JsNumber ν] (f : File)
    (outcome : AxiosOutcome ν) :
    ((∃ last, handleFileChange (some f) outcome
          = [Effect.onUploadStart, Effect.post API_URL f, last])
        ↔ ∃ stem : List Char, f.name.toList = stem ++ ['.', 'c', 's', 'v']) ∧
      ((handleFileChange (some f) outcome
          = [Effect.onUploadError (.str "Please upload a CSV file")])
        ↔ ¬ ∃ stem : List Char, f.name.toList = stem ++ ['.', 'c', 's', 'v']) := by
  have hiff := endsWith_iff f.name ".csv"
  have hcs : (".csv" : String).toList = ['.', 'c', 's', 'v'] := rfl
  rw [hcs] at hiff
  rw [← hiff]
  cases hends : endsWith f.name ".csv"
  · simp [handleFileChange, hends, notCsvMessage]
  · cases outcome <;> simp [handleFileChange, hends]

end FileUploadProps

/-! ## Properties of the chart projection -/

section ChartProps

variable {ν : Type}

/-- In an object whose keys are distinct, property lookup of the key at a
position of the property list gives the value at this position. -/
theorem lookupProp_getElem (props : List (String × JsVal ν))
    (hkeys : (props.map Prod.fst).Nodup) (i : Nat) (hi : i < props.length) :
    JsVal.lookupProp (props[i]).1 props = (props[i]).2 := by
  induction props generalizing i with
  | nil => simp at hi
  | cons p rest ih =>
    obtain ⟨k, v⟩ := p
    rw [List.map_cons, List.nodup_cons] at hkeys
    cases i with
    | zero => simp [JsVal.lookupProp]
    | succ j =>
      have hj : j < rest.length := by simpa using hi
      have hmem : (rest[j]).1 ∈ rest.map Prod.fst :=
        List.mem_map.mpr ⟨rest[j], List.getElem_mem _, rfl⟩
      have hne : k ≠ (rest[j]).1 := fun h => hkeys.1 (h ▸ hmem)
      simp only [List.getElem_cons_succ, JsVal.lookupProp, if_neg hne]
      exact ih hkeys.2 j hj

/-- The chart component shows the placeholder for every value without own
enumerable properties, and for every falsy value. -/
theorem EquipmentTypeChart_noData [JsNumber ν] (data : JsVal ν)
    (h : data.truthy = false ∨ data.objectKeys = []) :
    EquipmentTypeChart data = ChartView.noData "No data available for chart" := by
  rcases h with h | h <;> simp [EquipmentTypeChart, h]

/-- For a truthy value with at least one own enumerable property the chart
component renders the bar chart of its keys and values. -/
theorem EquipmentTypeChart_bar [JsNumber ν] (data : JsVal ν) (ht : data.truthy = true)
    (hk : data.objectKeys ≠ []) :
    ∃ c : ChartData ν, EquipmentTypeChart data = .bar c ∧
      c.labels = data.objectKeys ∧ c.data = data.objectValues := by
  have hlen : ¬ data.objectKeys.length = 0 := fun h => hk (List.length_eq_zero.mp h)
  simp only [EquipmentTypeChart, ht, Bool.not_true, Bool.false_or, beq_iff_eq, hlen, if_false]
  exact ⟨_, rfl, rfl, rfl⟩

/-- For truthy `results` with a truthy field `equipment_by_type`, the function
`getChartData` returns the chart data of the keys and values of this field. -/
theorem getChartData_some [JsNumber ν] (results m : JsVal ν) (hr : results.truthy = true)
    (hfield : results.getProp "equipment_by_type" = .ok m) (hm : m.truthy = true) :
    ∃ c : ChartData ν, App.getChartData results = .ok (some c) ∧
      c.labels = m.objectKeys ∧ c.data = m.objectValues := by
  simp only [App.getChartData, hr, hfield, hm, Bool.not_true, Bool.false_eq_true, if_false]
  exact ⟨_, rfl, rfl, rfl⟩

/-- C3: for a non-empty mapping with distinct keys, both projections, the chart
component and `App.getChartData` (reading the mapping from the field
`equipment_by_type`), produce a series: the same labels and counts, as many of
each as the mapping has entries, the labels being the keys of the mapping
without duplicates, and the count at each position being the value of the
mapping at the label of this position. -/
theorem chart_series_matches_mapping [JsNumber ν] (props : List (String × JsVal ν))
    (results : JsVal ν) (hne : props ≠ []) (hkeys : (props.map Prod.fst).Nodup)
    (hfield : results.getProp "equipment_by_type" = .ok (.obj props)) :
    ∃ c1 c2 : ChartData ν,
      EquipmentTypeChart (.obj props) = .bar c1 ∧
      App.getChartData results = .ok (some c2) ∧
      c2.labels = c1.labels ∧ c2.data = c1.data ∧
      c1.labels.length = props.length ∧ c1.data.length = props.length ∧
      c1.labels.Nodup ∧
      (∀ k, k ∈ c1.labels ↔ ∃ v, (k, v) ∈ props) ∧
      ∀ (i : Nat) (hl : i < c1.labels.length) (hd : i < c1.data.length),
        c1.data[i] = JsVal.lookupProp c1.labels[i] props := by
  have htruthy : results.truthy = true := by
    cases results <;> simp [JsVal.getProp] at hfield
    rfl
  have hk : (JsVal.obj props).objectKeys ≠ [] := by
    simpa [JsVal.objectKeys] using hne
  obtain ⟨c1, h1, hl1, hd1⟩ := EquipmentTypeChart_bar (.obj props) rfl hk
  obtain ⟨c2, h2, hl2, hd2⟩ := getChartData_some results (.obj props) htruthy hfield rfl
  refine ⟨c1, c2, h1, h2, by rw [hl1, hl2], by rw [hd1, hd2], ?_, ?_, ?_, ?_, ?_⟩
  · simp [hl1, JsVal.objectKeys]
  · simp [hd1, JsVal.objectValues]
  · rw [hl1]
    simpa [JsVal.objectKeys] using hkeys
  · intro k
    rw [hl1]
    simp only [JsVal.objectKeys, List.mem_map]
    constructor
    · rintro ⟨⟨k1, v⟩, hmem, rfl⟩
      exact ⟨v, hmem⟩
    · rintro ⟨v, hmem⟩
      exact ⟨(k, v), hmem, rfl⟩
  · intro i hl hd
    have hi : i < props.length := by simpa [hl1, JsVal.objectKeys] using hl
    have e1 : c1.labels[i] = (props[i]).1 := by
      simp [hl1, JsVal.objectKeys]
    have e2 : c1.data[i] = (props[i]).2 := by
      simp [hd1, JsVal.objectValues]
    rw [e1, e2]
    exact (lookupProp_getElem props hkeys i hi).symm

/-- C3 at the mapping with `Valve: 2` before `Pump: 3`: the labels are `Valve`,
`Pump` and the counts `2`, `3`. -/
theorem chart_series_matches_mapping_witness :
    ∃ c1 c2 : ChartData Int,
      EquipmentTypeChart (.obj [("Valve", .num 2), ("Pump", .num 3)]) = .bar c1 ∧
      App.getChartData
        (.obj [("total_equipment", .num 5),
               ("equipment_by_type", .obj [("Valve", .num 2), ("Pump", .num 3)])])
        = .ok (some c2) ∧
      c2.labels = c1.labels ∧ c2.data = c1.data ∧
      c1.labels.length = 2 ∧ c1.data.length = 2 ∧
      c1.labels.Nodup ∧
      (∀ k, k ∈ c1.labels ↔
        ∃ v, (k, v) ∈ ([("Valve", .num 2), ("Pump", .num 3)] : List (String × JsVal Int))) ∧
      ∀ (i : Nat) (hl : i < c1.labels.length) (hd : i < c1.data.length),
        c1.data[i] = JsVal.lookupProp c1.labels[i] [("Valve", .num 2), ("Pump", .num 3)] :=
  chart_series_matches_mapping [("Valve", .num 2), ("Pump", .num 3)]
    (.obj [("total_equipment", .num 5),
           ("equipment_by_type", .obj [("Valve", .num 2), ("Pump", .num 3)])])
    (by simp) (by decide) (by simp [JsVal.getProp, JsVal.lookupProp])

/-- C4 at the empty mapping: the chart component shows the placeholder "No data
available for chart", whereas `App.getChartData`, for a payload whose field
`equipment_by_type` is the empty object, returns chart data with no labels and
no counts (the empty object is truthy, so the guard does not return `null`). -/
theorem empty_mapping_projections :
    EquipmentTypeChart (JsVal.obj [] : JsVal Int)
        = ChartView.noData "No data available for chart" ∧
      ∃ c : ChartData Int,
        App.getChartData (.obj [("total_equipment", .num 0), ("equipment_by_type", .obj [])])
          = .ok (some c) ∧
        c.labels = [] ∧ c.data = [] := by
  refine ⟨EquipmentTypeChart_noData _ (Or.inr rfl), ?_⟩
  obtain ⟨c, hc, hl, hd⟩ := getChartData_some
    (JsVal.obj [("total_equipment", .num 0), ("equipment_by_type", .obj [])] : JsVal Int)
    (.obj []) rfl (by simp [JsVal.getProp, JsVal.lookupProp]) rfl
  exact ⟨c, hc, hl, hd⟩

/-- C9, as stated, fails: a payload that carries the mapping under
`equipment_per_type` only gives no chart data in `App.getChartData`, and a
payload that carries it under `equipment_by_type` only gives the placeholder in
the chart section of `ResultsDisplay`. -/
theorem other_field_name_not_read :
    App.getChartData (JsVal.obj [("equipment_per_type", .obj [("Pump", .num 3)])] : JsVal Int)
        = .ok none ∧
      ResultsDisplay.chartSection
          (JsVal.obj [("equipment_by_type", .obj [("Pump", .num 3)])] : JsVal Int)
        = .ok (ChartView.noData "No data available for chart") := by
  constructor
  · simp [App.getChartData, JsVal.getProp, JsVal.lookupProp, JsVal.truthy]
  · simp [ResultsDisplay.chartSection, JsVal.getProp, JsVal.lookupProp, EquipmentTypeChart,
      JsVal.truthy]

/-- C9, amended: each projector reads one field name.  For a mapping `m` that is
truthy and has at least one key: when the payload carries `m` under
`equipment_by_type`, `App.getChartData` returns the series of `m` (its keys as
labels, its values as counts); when the payload carries `m` under
`equipment_per_type`, the chart section of `ResultsDisplay` shows the series of
`m`; so the same mapping under the name a projector reads gives the same labels
and counts.  A payload without the field a projector reads gives no series
there: `null` from `App.getChartData`, the placeholder in `ResultsDisplay`. -/
theorem projectors_read_one_field_name [JsNumber ν] (data m : JsVal ν)
    (hm : m.truthy = true) (hk : m.objectKeys ≠ []) :
    (data.getProp "equipment_by_type" = .ok m →
        ∃ c : ChartData ν, App.getChartData data = .ok (some c) ∧
          c.labels = m.objectKeys ∧ c.data = m.objectValues) ∧
      (data.getProp "equipment_per_type" = .ok m →
        ∃ c : ChartData ν, ResultsDisplay.chartSection data = .ok (.bar c) ∧
          c.labels = m.objectKeys ∧ c.data = m.objectValues) ∧
      (data.getProp "equipment_by_type" = .ok .undefined →
        App.getChartData data = .ok none) ∧
      (data.getProp "equipment_per_type" = .ok .undefined →
        ResultsDisplay.chartSection data
          = .ok (ChartView.noData "No data available for chart")) := by
  refine ⟨?_, ?_, ?_, ?_⟩
  · intro hfield
    have hr : data.truthy = true := by
      cases data <;> simp [JsVal.getProp] at hfield
      · subst hfield
        simp [JsVal.truthy] at hm
      · subst hfield
        simp [JsVal.truthy] at hm
      · subst hfield
        simp [JsVal.truthy] at hm
      · subst hfield
        simp [JsVal.truthy] at hm
      · rfl
    exact getChartData_some data m hr hfield hm
  · intro hfield
    obtain ⟨c, hc, hl, hd⟩ := EquipmentTypeChart_bar m hm hk
    exact ⟨c, by simp [ResultsDisplay.chartSection, hfield, hc], hl, hd⟩
  · intro hfield
    simp [App.getChartData, hfield, JsVal.truthy]
  · intro hfield
    simp [ResultsDisplay.chartSection, hfield, EquipmentTypeChart, JsVal.truthy]

/-- C9 (amended) at the mapping with `Pump: 3`, carried under `equipment_by_type`
for `App.getChartData` and under `equipment_per_type` for `ResultsDisplay`. -/
theorem projectors_read_one_field_name_witness :
    (∃ c : ChartData Int,
        App.getChartData (.obj [("equipment_by_type", .obj [("Pump", .num 3)])])
          = .ok (some c) ∧
        c.labels = ["Pump"] ∧ c.data = [.num 3]) ∧
      (∃ c : ChartData Int,
        ResultsDisplay.chartSection (.obj [("equipment_per_type", .obj [("Pump", .num 3)])])
          = .ok (.bar c) ∧
        c.labels = ["Pump"] ∧ c.data = [.num 3]) :=
  ⟨(projectors_read_one_field_name
      (JsVal.obj [("equipment_by_type", .obj [("Pump", .num 3)])] : JsVal Int)
      (.obj [("Pump", .num 3)]) rfl (by simp [JsVal.objectKeys])).1
      (by simp [JsVal.getProp, JsVal.lookupProp]),
   (projectors_read_one_field_name
      (JsVal.obj [("equipment_per_type", .obj [("Pump", .num 3)])] : JsVal Int)
      (.obj [("Pump", .num 3)]) rfl (by simp [JsVal.objectKeys])).2.1
      (by simp [JsVal.getProp, JsVal.lookupProp])⟩

end ChartProps

/-! ## Properties of the statistic cells -/

section StatProps

variable {ν : Type}

/-- In `ResultsDisplay`, the cell of an average that is `null` or missing shows
"N/A" without an exception, for every truthy payload; a number is shown by
`toFixed(2)`. -/
theorem averageCell_fallback [JsNumber ν] (data : JsVal ν) (field : String)
    (hdata : data.truthy = true) :
    (data.getProp field = .ok .null → ResultsDisplay.averageCell data field = .ok "N/A") ∧
      (data.getProp field = .ok .undefined →
        ResultsDisplay.averageCell data field = .ok "N/A") ∧
      (∀ x, data.getProp field = .ok (.num x) →
        ResultsDisplay.averageCell data field = .ok (JsNumber.toFixed2 x)) ∧
      ∃ v, data.getProp field = .ok v := by
  refine ⟨?_, ?_, ?_, ?_⟩
  · intro h
    simp [ResultsDisplay.averageCell, h, ResultsDisplay.renderAverage]
  · intro h
    simp [ResultsDisplay.averageCell, h, ResultsDisplay.renderAverage]
  · intro x h
    simp [ResultsDisplay.averageCell, h, ResultsDisplay.renderAverage]
  · cases data <;> simp [JsVal.getProp, JsVal.truthy] at hdata ⊢

/-- C5 at a payload with `average_flowrate: null` and no `average_pressure`:
`ResultsDisplay` shows "N/A" in both cells, without an exception, and formats
the present `average_temperature`; the results section of `App` renders the
same fields as empty text, not as "N/A". -/
theorem average_cells_null_or_missing :
    ResultsDisplay.averageCell
        (JsVal.obj [("total_equipment", .num 5), ("average_flowrate", .null),
          ("average_temperature", .num 80)] : JsVal Int) "average_flowrate" = .ok "N/A" ∧
      ResultsDisplay.averageCell
        (JsVal.obj [("total_equipment", .num 5), ("average_flowrate", .null),
          ("average_temperature", .num 80)] : JsVal Int) "average_pressure" = .ok "N/A" ∧
      ResultsDisplay.averageCell
        (JsVal.obj [("total_equipment", .num 5), ("average_flowrate", .null),
          ("average_temperature", .num 80)] : JsVal Int) "average_temperature" = .ok "80.00" ∧
      App.statCell
        (JsVal.obj [("total_equipment", .num 5), ("average_flowrate", .null),
          ("average_temperature", .num 80)] : JsVal Int) "average_flowrate" = .ok "" ∧
      App.statCell
        (JsVal.obj [("total_equipment", .num 5), ("average_flowrate", .null),
          ("average_temperature", .num 80)] : JsVal Int) "average_pressure" = .ok "" := by
  refine ⟨?_, ?_, ?_, ?_, ?_⟩
  · simp [ResultsDisplay.averageCell, JsVal.getProp, JsVal.lookupProp,
      ResultsDisplay.renderAverage]
  · simp [ResultsDisplay.averageCell, JsVal.getProp, JsVal.lookupProp,
      ResultsDisplay.renderAverage]
  · simp [ResultsDisplay.averageCell, JsVal.getProp, JsVal.lookupProp,
      ResultsDisplay.renderAverage, JsNumber.toFixed2]
    decide
  · simp [App.statCell, JsVal.getProp, JsVal.lookupProp, reactChild]
  · simp [App.statCell, JsVal.getProp, JsVal.lookupProp, reactChild]

end StatProps

/-! ## Properties of the submission state of `App` -/

section AppProps

variable {ν : Type}

open App

/-- While `loading` is set, user actions send no request and leave `loading`
and `results` as they are. -/
theorem run_while_loading (s : AppState ν) (hload : s.loading = true) (evs : List UserEvent) :
    (run s evs).2 = [] ∧ (run s evs).1.loading = true ∧ (run s evs).1.results = s.results := by
  induction evs generalizing s with
  | nil => exact ⟨rfl, hload, rfl⟩
  | cons e rest ih =>
    cases e with
    | selectFile file =>
      have h := ih (handleFileChange s file) hload
      simpa [run, step, handleFileChange] using h
    | submit =>
      have h := ih s hload
      simpa [run, step, clickSubmit, submitDisabled, hload] using h

/-- The function `handleSubmit` has no guard of its own on `loading`: called
directly in a state with a file it sends a request whatever `loading` is. -/
theorem handleSubmitStart_sends (s : AppState ν) (f : File) (hfile : s.selectedFile = some f) :
    (handleSubmitStart s).2 = [{ url := "http://localhost:8000/api/analyze/", file := f }] := by
  simp [handleSubmitStart, hfile]

/-- C8: a click on the submit button while `loading` is true is a no-op: the
state (selected file, results, error, loading) is unchanged and no request is
sent; no sequence of user actions sends a request while `loading` is true; and
two submits in succession from a state with a file and without a pending call
send exactly one request. -/
theorem submit_while_loading_noop (s : AppState ν) (hload : s.loading = true) :
    clickSubmit s = (s, []) ∧
      step s UserEvent.submit = (s, []) ∧
      (∀ evs : List UserEvent, (run s evs).2 = []) ∧
      ∀ (s0 : AppState ν) (f : File), s0.selectedFile = some f → s0.loading = false →
        (run s0 [UserEvent.submit, UserEvent.submit]).2
            = [{ url := "http://localhost:8000/api/analyze/", file := f }] ∧
          (run s0 [UserEvent.submit, UserEvent.submit]).1 = (run s0 [UserEvent.submit]).1 := by
  have hclick : clickSubmit s = (s, []) := by
    simp [clickSubmit, submitDisabled, hload]
  refine ⟨hclick, hclick, fun evs => (run_while_loading s hload evs).1, ?_⟩
  intro s0 f hfile hidle
  simp [run, step, clickSubmit, submitDisabled, hidle, handleSubmitStart, hfile]

/-- C8 at the state reached from the initial state by selecting `equipment.csv`
and submitting once. -/
theorem submit_while_loading_noop_witness :
    clickSubmit
        ({ selectedFile := some ⟨"equipment.csv"⟩, results := .null, loading := true,
           error := .null } : AppState Int)
      = ({ selectedFile := some ⟨"equipment.csv"⟩, results := .null, loading := true,
           error := .null }, []) ∧
      (run
          ({ selectedFile := some ⟨"equipment.csv"⟩, results := .null, loading := false,
             error := .null } : AppState Int)
          [UserEvent.submit, UserEvent.submit]).2
        = [{ url := "http://localhost:8000/api/analyze/", file := ⟨"equipment.csv"⟩ }] :=
  ⟨(submit_while_loading_noop
      ({ selectedFile := some ⟨"equipment.csv"⟩, results := .null, loading := true,
         error := .null } : AppState Int) rfl).1,
   ((submit_while_loading_noop
      ({ selectedFile := some ⟨"equipment.csv"⟩, results := .null, loading := true,
         error := .null } : AppState Int) rfl).2.2.2
      { selectedFile := some ⟨"equipment.csv"⟩, results := .null, loading := false,
        error := .null } ⟨"equipment.csv"⟩ rfl rfl).1⟩

/-- C10, as stated, fails: selecting a file in a state with stored results
leaves the results stored, and the results section stays on display. -/
theorem handleFileChange_keeps_results :
    (handleFileChange
        ({ selectedFile := some ⟨"equipment.csv"⟩,
           results := .obj [("total_equipment", .num 5)],
           loading := false, error := .null } : AppState Int)
        (some ⟨"other.csv"⟩)).results
      = .obj [("total_equipment", .num 5)] ∧
      (handleFileChange
        ({ selectedFile := some ⟨"equipment.csv"⟩,
           results := .obj [("total_equipment", .num 5)],
           loading := false, error := .null } : AppState Int)
        (some ⟨"other.csv"⟩)).results
      ≠ .null ∧
      showsResults
        (handleFileChange
          ({ selectedFile := some ⟨"equipment.csv"⟩,
             results := .obj [("total_equipment", .num 5)],
             loading := false, error := .null } : AppState Int)
          (some ⟨"other.csv"⟩))
      = true := by
  refine ⟨rfl, ?_, rfl⟩
  simp [handleFileChange]

/-- C10, amended: after `App.handleFileChange` the selected file is the new
file and the error is `null`; `results` and `loading` are left as they were.  So
from a state without stored results and without a pending call (as after a
failure) all of error, results and loading are cleared. -/
theorem handleFileChange_state (s : AppState ν) (file : Option File) :
    (handleFileChange s file).selectedFile = file ∧
      (handleFileChange s file).error = .null ∧
      (handleFileChange s file).results = s.results ∧
      (handleFileChange s file).loading = s.loading ∧
      (s.results = .null ∧ s.loading = false →
        handleFileChange s file
          = { selectedFile := file, results := .null, loading := false, error := .null }) := by
  refine ⟨rfl, rfl, rfl, rfl, ?_⟩
  rintro ⟨hres, hload⟩
  cases s
  simp only at hres hload
  subst hres hload
  rfl

/-- The state after the remote call settled with a failure: `loading` is
cleared, `results` unchanged, and the error is the connection text, the
processing text or the truthy `error` field of the body. -/
theorem handleSubmitSettle_failure [JsNumber ν] (s : AppState ν) (o : FetchOutcome ν)
    (hfail : o.isFailure = true) :
    (handleSubmitSettle s o).loading = false ∧
      (handleSubmitSettle s o).results = s.results ∧
      ((handleSubmitSettle s o).error = .str connectErrorMessage ∨
        (handleSubmitSettle s o).error = .str processingErrorMessage ∨
        ∃ data e, o = .response false (some data) ∧ data.getProp "error" = .ok e ∧
          e.truthy = true ∧ (handleSubmitSettle s o).error = e) := by
  cases o with
  | rejected => exact ⟨rfl, rfl, Or.inl rfl⟩
  | response ok body =>
    cases body with
    | none => exact ⟨rfl, rfl, Or.inl rfl⟩
    | some data =>
      have hok : ok = false := by simpa [FetchOutcome.isFailure] using hfail
      subst hok
      cases hget : data.getProp "error" with
      | error err =>
        refine ⟨rfl, ?_, Or.inl ?_⟩ <;>
          simp [handleSubmitSettle, onResponse, hget, onCatch]
      | ok e =>
        cases he : e.truthy
        · refine ⟨rfl, ?_, Or.inr (Or.inl ?_)⟩ <;>
            simp [handleSubmitSettle, onResponse, hget, JsVal.orElse, he]
        · refine ⟨rfl, ?_, Or.inr (Or.inr ⟨data, e, rfl, hget, he, ?_⟩)⟩ <;>
            simp [handleSubmitSettle, onResponse, hget, JsVal.orElse, he]

/-- A truthy string is a non-empty string. -/
theorem isNonEmptyString_of_truthy_str [JsNumber ν] (t : String)
    (h : (JsVal.str t : JsVal ν).truthy = true) : (JsVal.str t : JsVal ν).isNonEmptyString := by
  simpa [JsVal.truthy, JsVal.isNonEmptyString] using h

/-- C7, as stated, fails: for the non-2xx response with the body
`{"error": ["No file provided"]}` the stored error is the array, not a string. -/
theorem handleSubmit_failure_error_not_string :
    FetchOutcome.isFailure
        (FetchOutcome.response false
          (some (JsVal.obj [("error", .arr [.str "No file provided"])] : JsVal Int))) = true ∧
      (handleSubmitSettle
          (handleSubmitStart
            ({ selectedFile := some ⟨"equipment.csv"⟩, results := .null, loading := false,
               error := .null } : AppState Int)).1
          (.response false (some (.obj [("error", .arr [.str "No file provided"])])))).error
        = .arr [.str "No file provided"] ∧
      ¬ (handleSubmitSettle
          (handleSubmitStart
            ({ selectedFile := some ⟨"equipment.csv"⟩, results := .null, loading := false,
               error := .null } : AppState Int)).1
          (.response false
            (some (.obj [("error", .arr [.str "No file provided"])])))).error.isNonEmptyString := by
  have h : (handleSubmitSettle
          (handleSubmitStart
            ({ selectedFile := some ⟨"equipment.csv"⟩, results := .null, loading := false,
               error := .null } : AppState Int)).1
          (.response false (some (.obj [("error", .arr [.str "No file provided"])])))).error
        = .arr [.str "No file provided"] := by
    simp [handleSubmitSettle, handleSubmitStart, onResponse, JsVal.getProp, JsVal.lookupProp,
      JsVal.orElse, JsVal.truthy]
  refine ⟨rfl, h, ?_⟩
  rw [h]
  simp [JsVal.isNonEmptyString]

/-- C7, amended: when `handleSubmit` is started in a state with a selected file
and the remote call settles with a failure (after any user actions in between),
the final state has `loading` false, `results` null and a truthy error.  The
error is a non-empty string, except when the body of a non-2xx response has a
truthy `error` field that is not a string: that value is stored as it is. -/
theorem handleSubmit_failure_state [JsNumber ν] (s : AppState ν) (f : File)
    (evs : List UserEvent) (o : FetchOutcome ν)
    (hfile : s.selectedFile = some f) (hfail : o.isFailure = true) :
    (handleSubmitSettle (run (handleSubmitStart s).1 evs).1 o).loading = false ∧
      (handleSubmitSettle (run (handleSubmitStart s).1 evs).1 o).results = .null ∧
      (handleSubmitSettle (run (handleSubmitStart s).1 evs).1 o).error.truthy = true ∧
      ((handleSubmitSettle (run (handleSubmitStart s).1 evs).1 o).error.isNonEmptyString ∨
        ∃ data e, o = .response false (some data) ∧ data.getProp "error" = .ok e ∧
          e.truthy = true ∧ (∀ t, e ≠ .str t) ∧
          (handleSubmitSettle (run (handleSubmitStart s).1 evs).1 o).error = e) := by
  have hstart : (handleSubmitStart s).1.loading = true ∧ (handleSubmitStart s).1.results = .null := by
    simp [handleSubmitStart, hfile]
  obtain ⟨-, -, hres⟩ := run_while_loading (handleSubmitStart s).1 hstart.1 evs
  rw [hstart.2] at hres
  obtain ⟨hl, hr, herr⟩ := handleSubmitSettle_failure (run (handleSubmitStart s).1 evs).1 o hfail
  refine ⟨hl, hr.trans hres, ?_, ?_⟩
  · rcases herr with h | h | ⟨data, e, -, -, he, h⟩
    · rw [h]; simp [JsVal.truthy, connectErrorMessage]
    · rw [h]; simp [JsVal.truthy, processingErrorMessage]
    · rw [h]; exact he
  · rcases herr with h | h | ⟨data, e, ho, hget, he, h⟩
    · left; rw [h]; simp [JsVal.isNonEmptyString, connectErrorMessage]
    · left; rw [h]; simp [JsVal.isNonEmptyString, processingErrorMessage]
    · by_cases hstr : ∃ t, e = .str t
      · obtain ⟨t, rfl⟩ := hstr
        left
        rw [h]
        exact isNonEmptyString_of_truthy_str t he
      · right
        exact ⟨data, e, ho, hget, he, fun t ht => hstr ⟨t, ht⟩, h⟩

/-- C7 (amended) at the initial state with `equipment.csv` selected and a
rejected call. -/
theorem handleSubmit_failure_state_witness :
    (handleSubmitSettle
        (run (handleSubmitStart
          ({ selectedFile := some ⟨"equipment.csv"⟩, results := .null, loading := false,
             error := .null } : AppState Int)).1 [UserEvent.submit]).1
        FetchOutcome.rejected).loading = false ∧
      (handleSubmitSettle
        (run (handleSubmitStart
          ({ selectedFile := some ⟨"equipment.csv"⟩, results := .null, loading := false,
             error := .null } : AppState Int)).1 [UserEvent.submit]).1
        FetchOutcome.rejected).results = .null :=
  ⟨(handleSubmit_failure_state
      ({ selectedFile := some ⟨"equipment.csv"⟩, results := .null, loading := false,
         error := .null } : AppState Int) ⟨"equipment.csv"⟩ [UserEvent.submit]
      FetchOutcome.rejected rfl rfl).1,
   (handleSubmit_failure_state
      ({ selectedFile := some ⟨"equipment.csv"⟩, results := .null, loading := false,
         error := .null } : AppState Int) ⟨"equipment.csv"⟩ [UserEvent.submit]
      FetchOutcome.rejected rfl rfl).2.1⟩

/-- C6, as stated, fails: in `App.handleSubmit` a rejected call and a non-2xx
response whose body `{}` has no `error` field are both failures without an
`error` field, and they store two different fallback texts. -/
theorem handleSubmit_two_fallback_texts :
    (handleSubmitSettle
        ({ selectedFile := some ⟨"equipment.csv"⟩, results := .null, loading := true,
           error := .null } : AppState Int)
        FetchOutcome.rejected).error
      = .str "Failed to connect to the server. Make sure the backend is running." ∧
      (handleSubmitSettle
        ({ selectedFile := some ⟨"equipment.csv"⟩, results := .null, loading := true,
           error := .null } : AppState Int)
        (FetchOutcome.response false (some (.obj [])))).error
      = .str "An error occurred while processing the file" ∧
      (handleSubmitSettle
        ({ selectedFile := some ⟨"equipment.csv"⟩, results := .null, loading := true,
           error := .null } : AppState Int)
        FetchOutcome.rejected).error
      ≠ (handleSubmitSettle
        ({ selectedFile := some ⟨"equipment.csv"⟩, results := .null, loading := true,
           error := .null } : AppState Int)
        (FetchOutcome.response false (some (.obj [])))).error := by
  have h1 : (handleSubmitSettle
        ({ selectedFile := some ⟨"equipment.csv"⟩, results := .null, loading := true,
           error := .null } : AppState Int)
        FetchOutcome.rejected).error
      = .str "Failed to connect to the server. Make sure the backend is running." := rfl
  have h2 : (handleSubmitSettle
        ({ selectedFile := some ⟨"equipment.csv"⟩, results := .null, loading := true,
           error := .null } : AppState Int)
        (FetchOutcome.response false (some (.obj [])))).error
      = .str "An error occurred while processing the file" := by
    simp [handleSubmitSettle, onResponse, JsVal.getProp, JsVal.lookupProp, JsVal.orElse,
      JsVal.truthy, processingErrorMessage]
  refine ⟨h1, h2, ?_⟩
  rw [h1, h2]
  simp

/-- C6, amended: the stored error message of a failed submission.

In `App.handleSubmit`: for a non-2xx response whose decoded body has a truthy
`error` field the message is this field; for a non-2xx response whose decoded
body has no truthy `error` field it is "An error occurred while processing the
file"; when the call rejects, the body cannot be decoded, or reading `error`
from the body throws (the body is `null`), it is "Failed to connect to the
server. Make sure the backend is running.".

In `FileUpload.handleFileChange` (for an accepted file): when the rejection
carries a truthy body with a truthy `error` field, `onUploadError` receives this
field; in every other case of a rejection it receives the one text "Failed to
upload file. Please check if the backend server is running.". -/
theorem failure_message [JsNumber ν] (s : AppState ν) (f : File) :
    (∀ data e : JsVal ν, data.getProp "error" = .ok e → e.truthy = true →
        (handleSubmitSettle s (.response false (some data))).error = e) ∧
      (∀ data e : JsVal ν, data.getProp "error" = .ok e → e.truthy = false →
        (handleSubmitSettle s (.response false (some data))).error
          = .str "An error occurred while processing the file") ∧
      (∀ data err, data.getProp "error" = .error err →
        (handleSubmitSettle s (.response false (some data))).error
          = .str "Failed to connect to the server. Make sure the backend is running.") ∧
      (∀ ok, (handleSubmitSettle s (.response ok none)).error
          = .str "Failed to connect to the server. Make sure the backend is running.") ∧
      ((handleSubmitSettle s FetchOutcome.rejected).error
          = .str "Failed to connect to the server. Make sure the backend is running.") ∧
      (endsWith f.name ".csv" = true →
        (∀ data e : JsVal ν, data.truthy = true → data.getProp "error" = .ok e →
            e.truthy = true →
          FileUpload.handleFileChange (some f) (.rejected (some data))
            = [.onUploadStart, .post FileUpload.API_URL f, .onUploadError e]) ∧
        (∀ responseData : Option (JsVal ν),
          (¬ ∃ data e, responseData = some data ∧ data.truthy = true ∧
              data.getProp "error" = .ok e ∧ e.truthy = true) →
          FileUpload.handleFileChange (some f) (.rejected responseData)
            = [.onUploadStart, .post FileUpload.API_URL f,
               .onUploadError
                (.str "Failed to upload file. Please check if the backend server is running.")])) := by
  refine ⟨?_, ?_, ?_, ?_, rfl, ?_⟩
  · intro data e hget he
    simp [handleSubmitSettle, onResponse, hget, JsVal.orElse, he]
  · intro data e hget he
    simp [handleSubmitSettle, onResponse, hget, JsVal.orElse, he, processingErrorMessage]
  · intro data err hget
    simp [handleSubmitSettle, onResponse, hget, onCatch, connectErrorMessage]
  · intro ok
    rfl
  · intro hends
    constructor
    · intro data e hd hget he
      simp [FileUpload.handleFileChange, hends, FileUpload.catchBlock, hd, hget, he]
    · intro responseData hnone
      cases responseData with
      | none =>
        simp [FileUpload.handleFileChange, hends, FileUpload.catchBlock,
          FileUpload.uploadFailedMessage]
      | some data =>
        cases hd : data.truthy
        · simp [FileUpload.handleFileChange, hends, FileUpload.catchBlock, hd,
            FileUpload.uploadFailedMessage]
        · cases hget : data.getProp "error" with
          | error err =>
            simp [FileUpload.handleFileChange, hends, FileUpload.catchBlock, hd, hget,
              FileUpload.uploadFailedMessage]
          | ok e =>
            cases he : e.truthy
            · simp [FileUpload.handleFileChange, hends, FileUpload.catchBlock, hd, hget, he,
                FileUpload.uploadFailedMessage]
            · exact absurd ⟨data, e, rfl, hd, hget, he⟩ hnone

/-- C6 (amended) at the body `{"error": "Missing columns"}` of a non-2xx
response, for `App.handleSubmit` and for `FileUpload.handleFileChange` with the
file `equipment.csv`. -/
theorem failure_message_witness :
    (handleSubmitSettle
        ({ selectedFile := some ⟨"equipment.csv"⟩, results := .null, loading := true,
           error := .null } : AppState Int)
        (.response false (some (.obj [("error", .str "Missing columns")])))).error
      = .str "Missing columns" ∧
      FileUpload.handleFileChange (some ⟨"equipment.csv"⟩)
        (.rejected (some (JsVal.obj [("error", .str "Missing columns")] : JsVal Int)))
      = [.onUploadStart, .post FileUpload.API_URL ⟨"equipment.csv"⟩,
         .onUploadError (.str "Missing columns")] :=
  ⟨(failure_message
      ({ selectedFile := some ⟨"equipment.csv"⟩, results := .null, loading := true,
         error := .null } : AppState Int) ⟨"equipment.csv"⟩).1
      (.obj [("error", .str "Missing columns")]) (.str "Missing columns")
      (by simp [JsVal.getProp, JsVal.lookupProp]) (by decide),
   ((failure_message
      ({ selectedFile := some ⟨"equipment.csv"⟩, results := .null, loading := true,
         error := .null } : AppState Int) ⟨"equipment.csv"⟩).2.2.2.2.2 (by decide)).1
      (.obj [("error", .str "Missing columns")]) (.str "Missing columns")
      rfl (by simp [JsVal.getProp, JsVal.lookupProp]) (by decide)⟩

end AppProps

end EquipmentVisualizer
